import Mathlib

/-!
# Verification of the muscle 9P file server dispatcher

Shallow embedding of the 9P request dispatcher and control-file commands of
the muscle file server (`musclefs`).  Pure logic (mode policing, the fid
dispatch, the push/pull control commands) is translated directly from the
source; the tree engine and storage layer, whose sources are not part of the
code under verification (only the dispatcher is), are modelled from the
specification where the dispatcher calls into them, with doc comments saying
so.

Machine integers (`uint32`, `uint64`) are embedded as `Nat` with explicit
32-bit masks where Go's fixed-width semantics matter; all mode values coming
off the wire are `uint32`, so theorems carry a `mode < 2^32` bound where they
quantify over modes.
-/

namespace Muscle

/-! ## 9P constants (from the go9p `p` package)

Mode bits follow 9P2000's `DM*` layout; open-mode bits `OTRUNC`/`ORCLOSE`
and qid type bits `QTDIR`/`QTEXCL` likewise. -/

def DMDIR : Nat := 0x80000000
def DMAPPEND : Nat := 0x40000000
def DMEXCL : Nat := 0x20000000
def DMMOUNT : Nat := 0x10000000
def DMAUTH : Nat := 0x08000000
def DMTMP : Nat := 0x04000000
def DMSYMLINK : Nat := 0x02000000
def DMLINK : Nat := 0x01000000
def DMDEVICE : Nat := 0x00800000
def DMNAMEDPIPE : Nat := 0x00200000
def DMSOCKET : Nat := 0x00100000
def DMSETUID : Nat := 0x00080000
def DMSETGID : Nat := 0x00040000

def OTRUNC : Nat := 0x10
def ORCLOSE : Nat := 0x40

def QTDIR : Nat := 0x80
def QTEXCL : Nat := 0x20

/-- Canonical go9p error strings used by the dispatcher
(`srv.Eperm`, `srv.Enoent`, `srv.Enotempty`). -/
def Eperm : String := "permission denied"

def Enoent : String := "file not found"

def Enotempty : String := "directory not empty"

/-- The dispatcher's distinguished error for fids whose node was unlinked
(`Eunlinked` in the source). -/
def Eunlinked : String := "fid points to unlinked node"

/-! ## Mode policing (`checkMode` and its tables) -/

/-- The `unsupportedModes` table: each unsupported `DM*` bit with its
bit-specific error message.  In the Go source this is a map; iteration order
over a Go map is unspecified, so theorems about which message is produced
only consider modes with a single unsupported bit set, where the order is
irrelevant. -/
def unsupportedModes : List (Nat × String) :=
  [ (DMAPPEND, "append-only files are not supported"),
    (DMMOUNT, "mounted channels are not supported"),
    (DMAUTH, "authentication files are not supported"),
    (DMTMP, "temporary files are not supported"),
    (DMSYMLINK, "symbolic links are not supported"),
    (DMLINK, "hard links are not supported"),
    (DMDEVICE, "device files are not supported"),
    (DMNAMEDPIPE, "named pipes are not supported"),
    (DMSOCKET, "sockets are not supported"),
    (DMSETUID, "setuid files are not supported"),
    (DMSETGID, "setgid files are not supported") ]

/-- `knownModes`: the nine permission bits, the directory bit, the
exclusive-use bit, and every unsupported bit (those are recognized by the
policing code, they just draw a specific rejection). -/
def knownModes : Nat :=
  unsupportedModes.foldl (fun acc q => acc ||| q.1) (0o777 ||| DMDIR ||| DMEXCL)

/-- The 32-bit complement used to embed Go's `mode &^ knownModes`
for a `uint32` mode. -/
def unknownMask : Nat := 0xFFFFFFFF ^^^ knownModes

/-- View of a tree node as needed by `checkMode` (`tree.Node.IsDir` reads the
directory bit of the node's mode). -/
structure NodeView where
  isDir : Bool
deriving DecidableEq

/-- The bit checks of `checkMode` after the directory-transition checks: the
unsupported-bit table, then the unknown-bit check (`mode &^ knownModes` in
Go, embedded via the 32-bit complement). -/
def checkModeBits (mode : Nat) : Except String Unit :=
  match unsupportedModes.find? (fun q => mode &&& q.1 != 0) with
  | some q => Except.error q.2
  | none =>
    if mode &&& unknownMask != 0 then
      Except.error ("unrecognized mode bits: " ++ String.mk (Nat.toDigits 2 (mode &&& unknownMask)))
    else Except.ok ()

/-- Direct translation of `checkMode` from the dispatcher source: directory ↔
regular-file transition checks first (only when a node is given, i.e. on
Wstat), then the unsupported-bit table, then the unknown-bit check. -/
def checkMode (node : Option NodeView) (mode : Nat) : Except String Unit :=
  match node with
  | some n =>
    if n.isDir && (mode &&& DMDIR == 0) then
      Except.error "a directory cannot become a regular file"
    else if !n.isDir && !(mode &&& DMDIR == 0) then
      Except.error "a regular file cannot become a directory"
    else checkModeBits mode
  | none => checkModeBits mode

/-! ## Generic helpers: association lists -/

/-- Association-list lookup (first binding wins). -/
def alookup {α : Type} (l : List (Nat × α)) (k : Nat) : Option α :=
  (l.find? (fun q => q.1 == k)).map Prod.snd

/-- Association-list insert-or-replace. -/
def aset {α : Type} (l : List (Nat × α)) (k : Nat) (v : α) : List (Nat × α) :=
  (k, v) :: l.filter (fun q => q.1 != k)

/-- Association-list removal. -/
def adel {α : Type} (l : List (Nat × α)) (k : Nat) : List (Nat × α) :=
  l.filter (fun q => q.1 != k)

/-- Association-list in-place update (no-op when the key is absent). -/
def aupd {α : Type} (l : List (Nat × α)) (k : Nat) (f : α → α) : List (Nat × α) :=
  l.map (fun q => if q.1 == k then (q.1, f q.2) else q)

/-! ## Tree engine model

The `tree` package is code of this repository that is not under `src/` (the
dispatcher is its caller), so its operations are modelled from the spec
(§3.3, §4.4): in-memory nodes keyed by their stable 64-bit identifier (the
9P qid path), with mode, name, size, modification time, version counter
incremented on every modification, parent reference (the root's parent is
itself), child mapping for directories, an unlinked flag and a reference
count.  Store faulting, blocks and dirty flags are not observable by any
claim about the dispatcher and are elided. -/

structure NodeData where
  mode : Nat
  name : String
  size : Nat
  mtime : Nat
  version : Nat
  parent : Nat
  children : List (String × Nat)
  unlinked : Bool
  refcount : Nat
deriving DecidableEq

/-- `tree.Node.IsDir`: the directory bit of the node's mode. -/
def NodeData.isDir (n : NodeData) : Bool := n.mode &&& DMDIR != 0

structure TreeState where
  nodes : List (Nat × NodeData)
  rootId : Nat
  nextId : Nat
deriving DecidableEq

/-- Increment a node's reference count (`tree.Node.Ref`). -/
def refNode (t : TreeState) (id : Nat) : TreeState :=
  { t with nodes := aupd t.nodes id (fun n => { n with refcount := n.refcount + 1 }) }

/-- Decrement a node's reference count (`tree.Node.Unref`). -/
def unrefNode (t : TreeState) (id : Nat) : TreeState :=
  { t with nodes := aupd t.nodes id (fun n => { n with refcount := n.refcount - 1 }) }

/-- Modelled from the spec (§4.4.2): resolve one walk element from a node.
Dotdot resolves via the parent reference (the root's parent is itself);
other names through the child mapping. -/
def resolveChild (t : TreeState) (cur : Nat) (name : String) : Option Nat :=
  match alookup t.nodes cur with
  | none => none
  | some n =>
    if name = ".." then some n.parent
    else (n.children.find? (fun c => c.1 == name)).map Prod.snd

/-- Modelled from the spec (§4.4.2): `tree.Walk` resolves the longest
resolvable prefix of the name sequence, returning the visited node ids in
order; the caller detects `ErrNotExist` as a result shorter than the name
sequence. -/
def treeWalk (t : TreeState) (cur : Nat) (names : List String) : List Nat :=
  match names with
  | [] => []
  | name :: rest =>
    match resolveChild t cur name with
    | none => []
    | some c => c :: treeWalk t c rest

/-- Modelled from the spec (§4.4.1): `tree.Add` creates a fresh node under a
parent directory; errors are `not-a-dir` and `exists`.  The new node's
version starts fresh and the parent is modified (version bump). -/
def treeAdd (t : TreeState) (parentId : Nat) (name : String) (perm : Nat) :
    Except String (TreeState × Nat) :=
  match alookup t.nodes parentId with
  | none => Except.error Enoent
  | some parent =>
    if !parent.isDir then Except.error "not a directory"
    else if (parent.children.find? (fun c => c.1 == name)).isSome then
      Except.error "file already exists"
    else
      let id := t.nextId
      let child : NodeData :=
        { mode := perm, name := name, size := 0, mtime := 0, version := 1,
          parent := parentId, children := [], unlinked := false, refcount := 0 }
      let t1 := { t with
        nodes := aset (aupd t.nodes parentId (fun p =>
          { p with children := p.children ++ [(name, id)], version := p.version + 1 })) id child,
        nextId := id + 1 }
      Except.ok (t1, id)

/-- Modelled from the spec (§3.6, §4.4.1): `tree.Remove` fails with
`not-empty` on a non-empty directory; otherwise it marks the node unlinked
and drops it from its parent's child mapping (parent modified). -/
def treeRemove (t : TreeState) (id : Nat) : Except String TreeState :=
  match alookup t.nodes id with
  | none => Except.error Enoent
  | some n =>
    if n.isDir && !n.children.isEmpty then Except.error Enotempty
    else
      let t1 := { t with nodes := aupd t.nodes id (fun m => { m with unlinked := true }) }
      Except.ok { t1 with nodes := aupd t1.nodes n.parent (fun p =>
        { p with children := p.children.filter (fun c => c.2 != id), version := p.version + 1 }) }

/-- Modelled from the spec (§4.4.1): `node.Truncate` sets the size and bumps
the version. -/
def truncateNode (t : TreeState) (id : Nat) (length : Nat) : TreeState :=
  { t with nodes := aupd t.nodes id (fun n =>
      { n with size := length, version := n.version + 1 }) }

/-- Modelled from the spec (§4.4.1): `node.WriteAt` extends the size to cover
the written region and bumps the version. -/
def writeAtNode (t : TreeState) (id : Nat) (off len : Nat) : TreeState :=
  { t with nodes := aupd t.nodes id (fun n =>
      { n with size := max n.size (off + len), version := n.version + 1 }) }

/-- Modelled from the spec: `tree.Node.Rename` (used by Wstat name change). -/
def renameNode (t : TreeState) (id : Nat) (name : String) : TreeState :=
  { t with nodes := aupd t.nodes id (fun n =>
      { n with name := name, version := n.version + 1 }) }

/-- Modelled from the spec: `tree.Node.Touch` (used by Wstat mtime change). -/
def touchNode (t : TreeState) (id : Nat) (mtime : Nat) : TreeState :=
  { t with nodes := aupd t.nodes id (fun n =>
      { n with mtime := mtime, version := n.version + 1 }) }

/-- Modelled from the spec: `tree.Node.SetPerm` replaces the permission bits
(the dispatcher passes `mode & 0777`), keeping the directory bit. -/
def setPermNode (t : TreeState) (id : Nat) (perm : Nat) : TreeState :=
  { t with nodes := aupd t.nodes id (fun n =>
      { n with mode := (n.mode &&& DMDIR) ||| (perm &&& 0o777), version := n.version + 1 }) }

/-! ## 9P wire structures (go9p `p.Qid`, `p.Dir`) -/

structure Qid where
  qtype : Nat
  version : Nat
  path : Nat
deriving DecidableEq

/-- A 9P stat record (`p.Dir`). Fields keep go9p's "don't care" conventions:
all-ones for numeric fields, empty string for string fields. -/
structure PDir where
  dtype : Nat
  dev : Nat
  qid : Qid
  mode : Nat
  atime : Nat
  mtime : Nat
  length : Nat
  name : String
  uid : String
  gid : String
  muid : String
deriving DecidableEq

def dontCareQid : Qid := { qtype := 0xFF, version := 0xFFFFFFFF, path := 0xFFFFFFFFFFFFFFFF }

/-- Modelled from the spec: go9p's `Dir.Change*` predicates compare each
field against its "don't care" value. -/
def PDir.changeType (d : PDir) : Bool := d.dtype != 0xFFFF

def PDir.changeDev (d : PDir) : Bool := d.dev != 0xFFFFFFFF

def PDir.changeQid (d : PDir) : Bool := d.qid != dontCareQid

def PDir.changeMode (d : PDir) : Bool := d.mode != 0xFFFFFFFF

def PDir.changeAtime (d : PDir) : Bool := d.atime != 0xFFFFFFFF

def PDir.changeMtime (d : PDir) : Bool := d.mtime != 0xFFFFFFFF

def PDir.changeLength (d : PDir) : Bool := d.length != 0xFFFFFFFFFFFFFFFF

def PDir.changeName (d : PDir) : Bool := d.name != ""

def PDir.changeGID (d : PDir) : Bool := d.gid != ""

def PDir.changeMuid (d : PDir) : Bool := d.muid != ""

/-- Modelled from the spec (§4.5.2): go9p's `Dir.ChangeIllegalFields`.  Its
own doc comment names type, dev and qid; the implementation also trips on
atime and muid, which is exactly why the dispatcher blanks those two fields
first ("rename operations issue Wstat calls with non-empty muid … Linux
tries to set the atime", and the spec: "The dispatcher silently discards
atime and muid changes rather than failing"). -/
def PDir.changeIllegalFields (d : PDir) : Bool :=
  d.changeType || d.changeDev || d.changeQid || d.changeAtime || d.changeMuid

/-- `p9util.NodeUID`: the server process owner's user name (opaque here). -/
def nodeUID : String := "muscle-user"

/-- `p9util.NodeGID`: the server process owner's group name (opaque here). -/
def nodeGID : String := "muscle-group"

/-- `p9util.NodeQIDVar`: qid path is the node id, version is the node
version, type bit from the directory bit. -/
def nodeQid (id : Nat) (n : NodeData) : Qid :=
  { qtype := if n.mode &&& DMDIR != 0 then QTDIR else 0,
    version := n.version, path := id }

/-- `p9util.NodeDirVar`: translate a node to a 9P stat record. -/
def nodeDirOf (id : Nat) (n : NodeData) : PDir :=
  { dtype := 0, dev := 0, qid := nodeQid id n, mode := n.mode,
    atime := n.mtime, mtime := n.mtime, length := n.size, name := n.name,
    uid := nodeUID, gid := nodeGID, muid := "" }

/-! ## Dispatcher state (the `ops` receiver plus per-fid state) -/

/-- The server-side state behind one fid's `Aux` when it is a tree node
(`fsNode` in the source): the wrapped node, the dir-read buffer, and the
exclusive lock held through this handle, if any (recorded as the locked qid
path).  A zero-name walk clones a fid to the *same* `fsNode`, so fids
reference these records through a small heap. -/
structure FsNode where
  nodeId : Nat
  dirb : List PDir
  lock : Option Nat
deriving DecidableEq

/-- What a fid's `Aux` points at: the synthetic control file or a shared
`fsNode` record. -/
inductive FidAux where
  | ctl : FidAux
  | node : Nat → FidAux
deriving DecidableEq

/-- Full dispatcher state: the tree, the fid table, the `fsNode` heap, the
ctl file (qid, response buffer, atime/mtime), the exclusive-lock table
(qid path → owning fid) and the more-mode side table (qid path → `DMEXCL`). -/
structure SrvState where
  tree : TreeState
  fids : List (Nat × FidAux)
  fsNodes : List (Nat × FsNode)
  nextFs : Nat
  locks : List (Nat × Nat)
  moreModes : List (Nat × Nat)
  ctlQid : Qid
  ctlContents : String
  ctlAtime : Nat
  ctlMtime : Nat
  msize : Nat
deriving DecidableEq

/-- The more-mode side table lookup (`moreMode` in the source): zero when the
qid path is absent. -/
def moreMode (s : SrvState) (path : Nat) : Nat :=
  (alookup s.moreModes path).getD 0

/-- `setMoreMode`. -/
def setMoreMode (s : SrvState) (path : Nat) (m : Nat) : SrvState :=
  { s with moreModes := aset s.moreModes path m }

/-- Modelled from the spec (§4.5): `lockNode` acquires the process-wide
exclusive lock for a qid path on behalf of a fid; it fails (returns `none`)
when the path is already locked. -/
def lockNode (locks : List (Nat × Nat)) (fid : Nat) (path : Nat) :
    Option (List (Nat × Nat)) :=
  if (alookup locks path).isSome then none
  else some (aset locks path fid)

/-- Modelled from the spec (§4.5): `unlockNode` releases the lock for a qid
path. -/
def unlockNode (locks : List (Nat × Nat)) (path : Nat) : List (Nat × Nat) :=
  adel locks path

/-- Responses a handler can produce.  Handlers return a *list* of responses:
go9p permits exactly one response per request, so a singleton is the normal
case and any longer list is a protocol violation by the handler.
`ctlDispatch` marks the one seam not modelled inside the fid dispatcher: a
write to the ctl fid hands the payload to `runCommand`, whose push and pull
branches are modelled separately below. -/
inductive Resp where
  | rattach : Qid → Resp
  | rwalk : List Qid → Resp
  | ropen : Qid → Resp
  | rcreate : Qid → Resp
  | rread : Nat → Resp
  | rwrite : Nat → Resp
  | rclunk : Resp
  | rremove : Resp
  | rstat : PDir → Resp
  | rwstat : Resp
  | rerror : String → Resp
  | ctlDispatch : String → Resp
deriving DecidableEq

/-- go9p's error for a fid with no attached state; the go9p framework
normally rules this out before invoking a handler, so the branches using it
below are defensive and unreachable under the framework's contract. -/
def Eunknownfid : String := "unknown fid"

/-! ## The 9P request handlers (`ops.*` in the source) -/

/-- `ops.Attach`: materialize the root, reference it, bind the fid. -/
def opsAttach (s : SrvState) (fid : Nat) : SrvState × List Resp :=
  match alookup s.tree.nodes s.tree.rootId with
  | none => (s, [Resp.rerror Enoent])
  | some root =>
    let ref := s.nextFs
    ({ s with tree := refNode s.tree s.tree.rootId,
              fsNodes := aset s.fsNodes ref { nodeId := s.tree.rootId, dirb := [], lock := none },
              nextFs := ref + 1,
              fids := aset s.fids fid (FidAux.node ref) },
     [Resp.rattach (nodeQid s.tree.rootId root)])

/-- `ops.Walk`.  From the ctl fid only a zero-name clone succeeds; from a
tree node: unlinked check, zero-name clone (sharing the `fsNode`), the
synthetic walk of `"ctl"` from the root, then `tree.Walk` with 9P's partial
walk semantics — a fully resolved walk binds the new fid to a fresh `fsNode`
on the final node and references it. -/
def opsWalk (s : SrvState) (fid newfid : Nat) (names : List String) :
    SrvState × List Resp :=
  match alookup s.fids fid with
  | none => (s, [Resp.rerror Eunknownfid])
  | some FidAux.ctl =>
    if names.isEmpty then
      ({ s with fids := aset s.fids newfid FidAux.ctl }, [Resp.rwalk []])
    else (s, [Resp.rerror Eperm])
  | some (FidAux.node ref) =>
    match alookup s.fsNodes ref with
    | none => (s, [Resp.rerror Eunknownfid])
    | some fs =>
      match alookup s.tree.nodes fs.nodeId with
      | none => (s, [Resp.rerror Eunknownfid])
      | some n =>
        if n.unlinked then (s, [Resp.rerror Eunlinked])
        else if names.isEmpty then
          ({ s with tree := refNode s.tree fs.nodeId,
                    fids := aset s.fids newfid (FidAux.node ref) }, [Resp.rwalk []])
        else if fs.nodeId = s.tree.rootId && names = ["ctl"] then
          ({ s with fids := aset s.fids newfid FidAux.ctl }, [Resp.rwalk [s.ctlQid]])
        else
          let walked := treeWalk s.tree fs.nodeId names
          if walked.isEmpty then (s, [Resp.rerror Enoent])
          else
            let qids := walked.filterMap (fun id =>
              (alookup s.tree.nodes id).map (nodeQid id))
            if walked.length = names.length then
              match walked.getLast? with
              | none => (s, [Resp.rerror Enoent])
              | some lastId =>
                let ref2 := s.nextFs
                ({ s with tree := refNode s.tree lastId,
                          fsNodes := aset s.fsNodes ref2
                            { nodeId := lastId, dirb := [], lock := none },
                          nextFs := ref2 + 1,
                          fids := aset s.fids newfid (FidAux.node ref2) },
                 [Resp.rwalk qids])
            else (s, [Resp.rwalk qids])

/-- `fsNode.prepareForReads`: cache the stat records of the directory's
children in the fid's dir buffer. -/
def prepareForReads (t : TreeState) (n : NodeData) : List PDir :=
  n.children.filterMap (fun c => (alookup t.nodes c.2).map (nodeDirOf c.2))

/-- The tail of `ops.Open` after the exclusive-lock handling: directories
are grown and get their dir buffer prepared; files honor `OTRUNC`. -/
def openRest (s : SrvState) (ref : Nat) (nodeId : Nat) (n : NodeData)
    (mode : Nat) (qid : Qid) (pre : List Resp) : SrvState × List Resp :=
  if n.isDir then
    let fsn2 := aupd s.fsNodes ref (fun f => { f with dirb := prepareForReads s.tree n })
    ({ s with fsNodes := fsn2 }, pre ++ [Resp.ropen qid])
  else if mode &&& OTRUNC != 0 then
    ({ s with tree := truncateNode s.tree nodeId 0 }, pre ++ [Resp.ropen qid])
  else (s, pre ++ [Resp.ropen qid])

/-- `ops.Open`.  Faithful to the source, the `ORCLOSE` rejection is *not*
followed by a return: the handler keeps running and produces a second
response (`pre` collects the premature error). -/
def opsOpen (s : SrvState) (fid : Nat) (mode : Nat) : SrvState × List Resp :=
  let pre : List Resp := if mode &&& ORCLOSE != 0 then [Resp.rerror Eperm] else []
  match alookup s.fids fid with
  | none => (s, pre ++ [Resp.rerror Eunknownfid])
  | some FidAux.ctl => (s, pre ++ [Resp.ropen s.ctlQid])
  | some (FidAux.node ref) =>
    match alookup s.fsNodes ref with
    | none => (s, pre ++ [Resp.rerror Eunknownfid])
    | some fs =>
      match alookup s.tree.nodes fs.nodeId with
      | none => (s, pre ++ [Resp.rerror Eunknownfid])
      | some n =>
        if n.unlinked then (s, pre ++ [Resp.rerror Eunlinked])
        else
          let qid := nodeQid fs.nodeId n
          if moreMode s qid.path &&& DMEXCL != 0 then
            match lockNode s.locks fid qid.path with
            | none => (s, pre ++ [Resp.rerror "file already locked"])
            | some locks2 =>
              let fsn2 := aupd s.fsNodes ref (fun f => { f with lock := some qid.path })
              let s1 := { s with locks := locks2, fsNodes := fsn2 }
              openRest s1 ref fs.nodeId n mode
                { qid with qtype := qid.qtype ||| QTEXCL } pre
          else openRest s ref fs.nodeId n mode qid pre

/-- `ops.Create`: forbidden on the ctl fid; mode policing before `tree.Add`;
on success the fid is re-bound to the new child (referenced, parent
dereferenced) and a `DMEXCL` create records the side mode and takes the
lock. -/
def opsCreate (s : SrvState) (fid : Nat) (name : String) (perm : Nat) :
    SrvState × List Resp :=
  match alookup s.fids fid with
  | none => (s, [Resp.rerror Eunknownfid])
  | some FidAux.ctl => (s, [Resp.rerror Eperm])
  | some (FidAux.node ref) =>
    match alookup s.fsNodes ref with
    | none => (s, [Resp.rerror Eunknownfid])
    | some fs =>
      match alookup s.tree.nodes fs.nodeId with
      | none => (s, [Resp.rerror Eunknownfid])
      | some parent =>
        if parent.unlinked then (s, [Resp.rerror Eunlinked])
        else
          match checkMode none perm with
          | Except.error e => (s, [Resp.rerror e])
          | Except.ok _ =>
            match treeAdd s.tree fs.nodeId name perm with
            | Except.error e => (s, [Resp.rerror e])
            | Except.ok (t1, childId) =>
              let t2 := unrefNode (refNode t1 childId) fs.nodeId
              let ref2 := s.nextFs
              let fsn2 := aset s.fsNodes ref2 { nodeId := childId, dirb := [], lock := none }
              let s1 := ({ s with tree := t2, fsNodes := fsn2, nextFs := ref2 + 1,
                                  fids := aset s.fids fid (FidAux.node ref2) } : SrvState)
              let qid : Qid := match alookup t2.nodes childId with
                | some cn => nodeQid childId cn
                | none => { qtype := 0, version := 0, path := childId }
              if perm &&& DMEXCL != 0 then
                let s2 := setMoreMode s1 qid.path DMEXCL
                match lockNode s2.locks fid qid.path with
                | none => (s2, [Resp.rerror "out of locks"])
                | some locks2 =>
                  let fsn3 := aupd s2.fsNodes ref2 (fun f => { f with lock := some qid.path })
                  ({ s2 with locks := locks2, fsNodes := fsn3 },
                   [Resp.rcreate { qid with qtype := qid.qtype ||| QTEXCL }])
              else (s1, [Resp.rcreate qid])

/-- `p9util.DirBuffer.Read` modelled from the spec (§4.5): the buffer caches
the serialized child entries at `Open` time and reads consume it by offset;
entries are abstracted to unit size. -/
def dirbRead (dirb : List PDir) (off count : Nat) : Nat :=
  min count (dirb.length - off)

/-- `ops.Read`: the guard mirrors `p.InitRread` (the response buffer holds at
most `msize` bytes); the ctl branch serves the command response buffer by
offset; directory fids read the cached dir buffer; files read from content
(modelled as the byte count available at the offset). -/
def opsRead (s : SrvState) (now : Nat) (fid : Nat) (off count : Nat) :
    SrvState × List Resp :=
  if count > s.msize then (s, [Resp.rerror "i/o count too large"])
  else
    match alookup s.fids fid with
    | none => (s, [Resp.rerror Eunknownfid])
    | some FidAux.ctl =>
      ({ s with ctlAtime := now },
       [Resp.rread (min count (s.ctlContents.length - off))])
    | some (FidAux.node ref) =>
      match alookup s.fsNodes ref with
      | none => (s, [Resp.rerror Eunknownfid])
      | some fs =>
        match alookup s.tree.nodes fs.nodeId with
        | none => (s, [Resp.rerror Eunknownfid])
        | some n =>
          if n.unlinked then (s, [Resp.rerror Eunlinked])
          else if n.isDir then (s, [Resp.rread (dirbRead fs.dirb off count)])
          else (s, [Resp.rread (min count (n.size - off))])

/-- `ops.Write`: a write to the ctl fid is one whole command handed to
`runCommand` (modelled separately, see `runPull`/`runPush`); a write to a
node fid goes through `node.WriteAt`. -/
def opsWrite (s : SrvState) (now : Nat) (fid : Nat) (off : Nat) (data : String) :
    SrvState × List Resp :=
  match alookup s.fids fid with
  | none => (s, [Resp.rerror Eunknownfid])
  | some FidAux.ctl =>
    ({ s with ctlMtime := now }, [Resp.ctlDispatch data])
  | some (FidAux.node ref) =>
    match alookup s.fsNodes ref with
    | none => (s, [Resp.rerror Eunknownfid])
    | some fs =>
      match alookup s.tree.nodes fs.nodeId with
      | none => (s, [Resp.rerror Eunknownfid])
      | some n =>
        if n.unlinked then (s, [Resp.rerror Eunlinked])
        else ({ s with tree := writeAtNode s.tree fs.nodeId off data.length },
              [Resp.rwrite data.length])

/-- `ops.Clunk`: release the exclusive lock held through this fid's
`fsNode`, if any, and always answer `Rclunk`. -/
def opsClunk (s : SrvState) (fid : Nat) : SrvState × List Resp :=
  match alookup s.fids fid with
  | some (FidAux.node ref) =>
    match alookup s.fsNodes ref with
    | some fs =>
      match fs.lock with
      | some path =>
        ({ s with locks := unlockNode s.locks path,
                  fsNodes := aupd s.fsNodes ref (fun f => { f with lock := none }) },
         [Resp.rclunk])
      | none => (s, [Resp.rclunk])
    | none => (s, [Resp.rclunk])
  | _ => (s, [Resp.rclunk])

/-- `ops.Remove`: forbidden on the ctl fid; `tree.Remove` maps `not-empty`
to `Enotempty` and anything else to a permission error. -/
def opsRemove (s : SrvState) (fid : Nat) : SrvState × List Resp :=
  match alookup s.fids fid with
  | none => (s, [Resp.rerror Eunknownfid])
  | some FidAux.ctl => (s, [Resp.rerror Eperm])
  | some (FidAux.node ref) =>
    match alookup s.fsNodes ref with
    | none => (s, [Resp.rerror Eunknownfid])
    | some fs =>
      match alookup s.tree.nodes fs.nodeId with
      | none => (s, [Resp.rerror Eunknownfid])
      | some n =>
        if n.unlinked then (s, [Resp.rerror Eunlinked])
        else
          match treeRemove s.tree fs.nodeId with
          | Except.error e =>
            if e == Enotempty then (s, [Resp.rerror Enotempty])
            else (s, [Resp.rerror Eperm])
          | Except.ok t1 => ({ s with tree := t1 }, [Resp.rremove])

/-- The ctl file's stat record (`ops.c.D`). -/
def ctlStatDir (s : SrvState) : PDir :=
  { dtype := 0, dev := 0, qid := s.ctlQid, mode := 0o644, atime := s.ctlAtime,
    mtime := s.ctlMtime, length := s.ctlContents.length, name := "ctl",
    uid := nodeUID, gid := nodeGID, muid := "" }

/-- `ops.Stat`: the node's stat with the `DMEXCL` bit and `QTEXCL` qid type
overridden from the more-mode side table. -/
def opsStat (s : SrvState) (fid : Nat) : SrvState × List Resp :=
  match alookup s.fids fid with
  | none => (s, [Resp.rerror Eunknownfid])
  | some FidAux.ctl => (s, [Resp.rstat (ctlStatDir s)])
  | some (FidAux.node ref) =>
    match alookup s.fsNodes ref with
    | none => (s, [Resp.rerror Eunknownfid])
    | some fs =>
      match alookup s.tree.nodes fs.nodeId with
      | none => (s, [Resp.rerror Eunknownfid])
      | some n =>
        if n.unlinked then (s, [Resp.rerror Eunlinked])
        else
          let dir := nodeDirOf fs.nodeId n
          if moreMode s dir.qid.path &&& DMEXCL != 0 then
            let q2 := { dir.qid with qtype := dir.qid.qtype ||| QTEXCL }
            (s, [Resp.rstat { dir with mode := dir.mode ||| DMEXCL, qid := q2 }])
          else
            let q2 := { dir.qid with qtype := dir.qid.qtype &&& (0xFF ^^^ QTEXCL) }
            (s, [Resp.rstat { dir with mode := dir.mode &&& (0xFFFFFFFF ^^^ DMEXCL), qid := q2 }])

/-- `ops.Wstat`.  Order is the source's: length change first (refused for
directories, otherwise the truncation is applied immediately), then the
atime and muid fields are blanked, then `ChangeIllegalFields` rejects, then
name, mtime and mode changes are applied, and finally a gid change is
refused. -/
def opsWstat (s : SrvState) (fid : Nat) (d : PDir) : SrvState × List Resp :=
  match alookup s.fids fid with
  | none => (s, [Resp.rerror Eunknownfid])
  | some FidAux.ctl => (s, [Resp.rerror Eperm])
  | some (FidAux.node ref) =>
    match alookup s.fsNodes ref with
    | none => (s, [Resp.rerror Eunknownfid])
    | some fs =>
      match alookup s.tree.nodes fs.nodeId with
      | none => (s, [Resp.rerror Eunknownfid])
      | some n =>
        if n.unlinked then (s, [Resp.rerror Eunlinked])
        else if d.changeLength && n.isDir then (s, [Resp.rerror Eperm])
        else
          let s1 := if d.changeLength then
              { s with tree := truncateNode s.tree fs.nodeId d.length }
            else s
          let d1 := { d with atime := 0xFFFFFFFF, muid := "" }
          if d1.changeIllegalFields then (s1, [Resp.rerror Eperm])
          else
            let s2 := if d1.changeName then
                { s1 with tree := renameNode s1.tree fs.nodeId d1.name }
              else s1
            let s3 := if d1.changeMtime then
                { s2 with tree := touchNode s2.tree fs.nodeId d1.mtime }
              else s2
            match (if d1.changeMode then checkMode (some { isDir := n.isDir }) d1.mode
                   else Except.ok ()) with
            | Except.error e => (s3, [Resp.rerror e])
            | Except.ok _ =>
              let s4 := if d1.changeMode then
                  let qid := nodeQid fs.nodeId n
                  let s4a := if d1.mode &&& DMEXCL != 0 then setMoreMode s3 qid.path DMEXCL
                             else setMoreMode s3 qid.path 0
                  { s4a with tree := setPermNode s4a.tree fs.nodeId (d1.mode &&& 0o777) }
                else s3
              if d1.changeGID then (s4, [Resp.rerror Eperm])
              else (s4, [Resp.rwstat])

/-- `ops.FidDestroy`: dereference the node and release any exclusive lock;
the fid ceases to exist. -/
def opsFidDestroy (s : SrvState) (fid : Nat) : SrvState :=
  match alookup s.fids fid with
  | none => s
  | some FidAux.ctl => { s with fids := adel s.fids fid }
  | some (FidAux.node ref) =>
    match alookup s.fsNodes ref with
    | none => { s with fids := adel s.fids fid }
    | some fs =>
      let s1 := { s with tree := unrefNode s.tree fs.nodeId, fids := adel s.fids fid }
      match fs.lock with
      | some path =>
        { s1 with locks := unlockNode s1.locks path,
                  fsNodes := aupd s1.fsNodes ref (fun f => { f with lock := none }) }
      | none => s1

/-! ## Control-file commands: `pull` and `push` (`runCommand` in the source)

The pull and push branches of `runCommand` drive the tree store, whose code
is not under `src/`: its operations are modelled from the spec (§3.5, §4.4.7,
§4.4.8) as an environment of possibly-failing effects, each producing an
event in a trace so that ordering is provable.  A pointer is an opaque key,
embedded as `Nat`; `%v` rendering of a pointer is its hex string. -/

/-- Hex rendering of a pointer, standing for `storage.Pointer`'s `%v`
formatting. -/
def ptrStr (p : Nat) : String := String.mk (Nat.toDigits 16 p)

/-- A revision record (§3.4): root pointer, parent (base) pointer, host
tag and timestamp; built by `tree.NewRevision(localroot, remotebase)`. -/
structure Revision where
  rootKey : Nat
  parent : Nat
  host : String
  when : Nat
deriving DecidableEq

/-- The store/tree effects performed by the pull and push commands, in
order. -/
inductive Ev where
  | getLocalBase : Ev
  | getRemoteBase : Ev
  | newTree : Nat → Ev
  | pullWorklog : Ev
  | flush : Ev
  | seal : Ev
  | storeRevision : Revision → Ev
  | setRevision : Revision → Ev
  | setRemoteBase : Nat → Ev
  | setLocalBase : Nat → Ev
deriving DecidableEq

/-- The durable and in-memory state the pull and push commands read and
write: the two base pointers (§3.5) and the in-memory current revision. -/
structure CmdState where
  localBase : Nat
  remoteBase : Nat
  currentRev : Option Revision
deriving DecidableEq

/-- Success/failure oracle for each effect the commands perform, plus the
values the effects produce.  `none` means the operation succeeds; `some e`
makes it fail with error text `e`.  `rootKey` is the root pointer after
seal, `revKey` the content-hash key the stored revision gets. -/
structure StoreEnv where
  getLocalErr : Option String
  getRemoteErr : Option String
  newTreeLocalErr : Option String
  newTreeRemoteErr : Option String
  worklogErr : Option String
  worklog : String
  flushErr : Option String
  sealErr : Option String
  storeRevErr : Option String
  setRemoteErr : Option String
  setLocalErr : Option String
  rootKey : Nat
  revKey : Nat
  host : String
  now : Nat
deriving DecidableEq

deriving instance DecidableEq for Except

/-- Outcome of one control command: final state, the ctl response buffer
(the source's `outputBuffer`, installed as the ctl contents by the deferred
closure), the effect trace, and the command's error result. -/
structure CmdResult where
  state : CmdState
  out : String
  trace : List Ev
  res : Except String Unit
deriving DecidableEq

/-- The push precondition failure message
(`errors.Errorf("local base %v does not match remote base %v, pull first", …)`). -/
def pushPreconditionError (localbase remotebase : Nat) : String :=
  "local base " ++ ptrStr localbase ++ " does not match remote base " ++
    ptrStr remotebase ++ ", pull first"

/-- The no-op pull message. -/
def pullNoopMsg : String := "local base matches remote base, pull is a no-op\n"

/-- The empty-worklog pull message. -/
def pullNoCommandsMsg : String := "no commands to run, pull is a no-op\n"

/-- The `pull` branch of `runCommand`: read both base pointers; short-circuit
when equal; otherwise load both historical trees, compute the worklog, and
either fast-forward the local base (empty worklog) or emit the worklog
without touching the bases. -/
def runPull (env : StoreEnv) (s : CmdState) : CmdResult :=
  match env.getLocalErr with
  | some e => ⟨s, e, [Ev.getLocalBase], Except.error e⟩
  | none =>
  match env.getRemoteErr with
  | some e => ⟨s, e, [Ev.getLocalBase, Ev.getRemoteBase], Except.error e⟩
  | none =>
  if s.localBase = s.remoteBase then
    ⟨s, pullNoopMsg, [Ev.getLocalBase, Ev.getRemoteBase], Except.ok ()⟩
  else
  match env.newTreeLocalErr with
  | some e => ⟨s, e, [Ev.getLocalBase, Ev.getRemoteBase, Ev.newTree s.localBase],
               Except.error e⟩
  | none =>
  match env.newTreeRemoteErr with
  | some e => ⟨s, e, [Ev.getLocalBase, Ev.getRemoteBase, Ev.newTree s.localBase,
                      Ev.newTree s.remoteBase], Except.error e⟩
  | none =>
  let tr := [Ev.getLocalBase, Ev.getRemoteBase, Ev.newTree s.localBase,
             Ev.newTree s.remoteBase, Ev.pullWorklog]
  match env.worklogErr with
  | some e => ⟨s, e, tr, Except.error e⟩
  | none =>
  if env.worklog.length = 0 then
    match env.setLocalErr with
    | some e => ⟨s, pullNoCommandsMsg ++ e, tr ++ [Ev.setLocalBase s.remoteBase],
                 Except.error e⟩
    | none =>
      ⟨{ s with localBase := s.remoteBase }, pullNoCommandsMsg,
       tr ++ [Ev.setLocalBase s.remoteBase], Except.ok ()⟩
  else ⟨s, env.worklog, tr, Except.ok ()⟩

/-- The `push` branch of `runCommand`: read both base pointers; refuse unless
they are equal; then flush, seal, build and store the new revision with the
remote base as parent, install it as the in-memory current revision, and
advance the remote then the local base pointer to the revision's key. -/
def runPush (env : StoreEnv) (s : CmdState) : CmdResult :=
  match env.getLocalErr with
  | some e => ⟨s, e, [Ev.getLocalBase], Except.error e⟩
  | none =>
  match env.getRemoteErr with
  | some e => ⟨s, e, [Ev.getLocalBase, Ev.getRemoteBase], Except.error e⟩
  | none =>
  if s.localBase ≠ s.remoteBase then
    let msg := pushPreconditionError s.localBase s.remoteBase
    ⟨s, msg, [Ev.getLocalBase, Ev.getRemoteBase], Except.error msg⟩
  else
  let out0 := "local base matches remote base, push allowed\n"
  match env.flushErr with
  | some e => ⟨s, out0 ++ e, [Ev.getLocalBase, Ev.getRemoteBase, Ev.flush],
               Except.error e⟩
  | none =>
  let out1 := out0 ++ "push: flushed\n"
  match env.sealErr with
  | some e => ⟨s, out1 ++ e, [Ev.getLocalBase, Ev.getRemoteBase, Ev.flush, Ev.seal],
               Except.error e⟩
  | none =>
  let out2 := out1 ++ "push: sealed\n"
  let revision : Revision :=
    { rootKey := env.rootKey, parent := s.remoteBase, host := env.host, when := env.now }
  let tr0 := [Ev.getLocalBase, Ev.getRemoteBase, Ev.flush, Ev.seal,
              Ev.storeRevision revision]
  match env.storeRevErr with
  | some e => ⟨s, out2 ++ e, tr0, Except.error e⟩
  | none =>
  let s1 := { s with currentRev := some revision }
  let out3 := out2 ++ "push: revision created: " ++ ptrStr env.revKey ++ "\n"
  let tr1 := tr0 ++ [Ev.setRevision revision]
  match env.setRemoteErr with
  | some e => ⟨s1, out3 ++ e, tr1 ++ [Ev.setRemoteBase env.revKey], Except.error e⟩
  | none =>
  let s2 := { s1 with remoteBase := env.revKey }
  let out4 := out3 ++ "push: updated remote base pointer: " ++ ptrStr env.revKey ++ "\n"
  let tr2 := tr1 ++ [Ev.setRemoteBase env.revKey]
  match env.setLocalErr with
  | some e => ⟨s2, out4 ++ e, tr2 ++ [Ev.setLocalBase env.revKey], Except.error e⟩
  | none =>
  let s3 := { s2 with localBase := env.revKey }
  let out5 := out4 ++ "push: updated local base pointer: " ++ ptrStr env.revKey ++ "\n"
  ⟨s3, out5, tr2 ++ [Ev.setLocalBase env.revKey], Except.ok ()⟩

/-! ## Concrete sample states (used by witness theorems) -/

/-- A store environment in which every operation succeeds and the worklog is
empty. -/
def envAllOk : StoreEnv :=
  { getLocalErr := none, getRemoteErr := none, newTreeLocalErr := none,
    newTreeRemoteErr := none, worklogErr := none, worklog := "",
    flushErr := none, sealErr := none, storeRevErr := none,
    setRemoteErr := none, setLocalErr := none,
    rootKey := 77, revKey := 91, host := "h", now := 5 }

/-- Like `envAllOk` but the pull worklog is non-empty. -/
def envWorklog : StoreEnv := { envAllOk with worklog := "unlink doc\n" }

/-- A small sample tree: root (id 0) with file `a` (id 1), file `lock`
(id 2, `DMEXCL` recorded in the side table), directory `d` (id 3) holding
file `e` (id 4); node 5 is an unlinked file still referenced by a fid. -/
def sampleTree : TreeState :=
  { nodes :=
      [ (0, { mode := DMDIR ||| 0o755, name := "", size := 0, mtime := 10, version := 7,
              parent := 0, children := [("a", 1), ("lock", 2), ("d", 3)],
              unlinked := false, refcount := 1 }),
        (1, { mode := 0o644, name := "a", size := 5, mtime := 11, version := 2,
              parent := 0, children := [], unlinked := false, refcount := 1 }),
        (2, { mode := 0o644, name := "lock", size := 0, mtime := 12, version := 1,
              parent := 0, children := [], unlinked := false, refcount := 1 }),
        (3, { mode := DMDIR ||| 0o755, name := "d", size := 0, mtime := 13, version := 4,
              parent := 0, children := [("e", 4)], unlinked := false, refcount := 0 }),
        (4, { mode := 0o644, name := "e", size := 7, mtime := 14, version := 1,
              parent := 3, children := [], unlinked := false, refcount := 0 }),
        (5, { mode := 0o644, name := "zombie", size := 1, mtime := 15, version := 9,
              parent := 0, children := [], unlinked := true, refcount := 1 }) ],
    rootId := 0, nextId := 6 }

/-- Sample dispatcher state over `sampleTree`: fid 1 on the root, fid 2 on
the ctl file, fid 3 on the unlinked node 5, fid 4 on file `a`, fid 5 on
file `lock`. -/
def sampleState : SrvState :=
  { tree := sampleTree,
    fids := [(1, FidAux.node 100), (2, FidAux.ctl), (3, FidAux.node 101),
             (4, FidAux.node 102), (5, FidAux.node 103)],
    fsNodes := [(100, { nodeId := 0, dirb := [], lock := none }),
                (101, { nodeId := 5, dirb := [], lock := none }),
                (102, { nodeId := 1, dirb := [], lock := none }),
                (103, { nodeId := 2, dirb := [], lock := none })],
    nextFs := 104,
    locks := [],
    moreModes := [(2, DMEXCL)],
    ctlQid := { qtype := 0, version := 0, path := 999000999 },
    ctlContents := "",
    ctlAtime := 0, ctlMtime := 0, msize := 8192 }

/-- A Wstat record requesting no change (every field at go9p's "don't care"
value). -/
def dontCareWstat : PDir :=
  { dtype := 0xFFFF, dev := 0xFFFFFFFF, qid := dontCareQid, mode := 0xFFFFFFFF,
    atime := 0xFFFFFFFF, mtime := 0xFFFFFFFF, length := 0xFFFFFFFFFFFFFFFF,
    name := "", uid := "", gid := "", muid := "" }

/-! # Theorems

First some generic helper lemmas (bitwise facts, association lists, lists),
then one theorem per claim with its witness. -/

theorem land_lor_right (a b c : Nat) : a &&& (b ||| c) = (a &&& b) ||| (a &&& c) :=
  Nat.eq_of_testBit_eq fun i => by
    simp [Nat.testBit_and, Nat.testBit_or, Bool.and_or_distrib_left]

theorem lor_eq_zero_iff (a b : Nat) : a ||| b = 0 ↔ a = 0 ∧ b = 0 := by
  constructor
  · intro h
    constructor <;> apply Nat.eq_of_testBit_eq <;> intro i <;>
      have hi := congrArg (Nat.testBit · i) h <;>
      simp only [Nat.testBit_or, Nat.zero_testBit, Bool.or_eq_false_iff] at hi <;>
      simp only [Nat.zero_testBit]
    · exact hi.1
    · exact hi.2
  · rintro ⟨rfl, rfl⟩
    rfl

theorem land_lor_eq_zero_iff (a b c : Nat) :
    a &&& (b ||| c) = 0 ↔ a &&& b = 0 ∧ a &&& c = 0 := by
  rw [land_lor_right, lor_eq_zero_iff]

/-- If `x` is the unique element of `l` satisfying `p`, then `find?` returns it. -/
theorem find_eq_of_unique {α : Type} (l : List α) (p : α → Bool) (x : α)
    (hmem : x ∈ l) (hx : p x = true) (huniq : ∀ y ∈ l, p y = true → y = x) :
    l.find? p = some x := by
  induction l with
  | nil => cases hmem
  | cons h t ih =>
    cases hh : p h with
    | true =>
      have e : h = x := huniq h (List.mem_cons_self h t) hh
      subst e
      exact List.find?_cons_of_pos t hh
    | false =>
      have hne : h ≠ x := fun e => by rw [e, hx] at hh; cases hh
      have hmem2 : x ∈ t := by
        cases hmem with
        | head => exact absurd rfl hne
        | tail _ hm => exact hm
      rw [List.find?_cons_of_neg t (by simp [hh])]
      exact ih hmem2 (fun y hy hp => huniq y (List.mem_cons_of_mem h hy) hp)

/-- Updating a key and looking it up gives the updated value. -/
theorem alookup_aupd_self {α : Type} (l : List (Nat × α)) (k : Nat) (f : α → α) :
    alookup (aupd l k f) k = (alookup l k).map f := by
  induction l with
  | nil => rfl
  | cons h t ih =>
    simp only [alookup, aupd, List.map, List.find?] at *
    cases hbe : h.1 == k with
    | true => simp [hbe]
    | false => simp only [hbe, Bool.false_eq_true, reduceIte, List.find?]; simpa [hbe] using ih

/-- `filterMap` with a function that is `some` on every element preserves
length. -/
theorem length_filterMap_of_all_isSome {α β : Type} (l : List α) (f : α → Option β)
    (h : ∀ x ∈ l, (f x).isSome) : (l.filterMap f).length = l.length := by
  induction l with
  | nil => rfl
  | cons a t ih =>
    have ha := h a (List.mem_cons_self a t)
    obtain ⟨b, hb⟩ := Option.isSome_iff_exists.mp ha
    simp [List.filterMap, hb, ih (fun x hx => h x (List.mem_cons_of_mem a hx))]

/-! ## Theorems for the claims -/

/-- C1: the push control command checks its precondition first: with unequal
base pointers it fails with an error naming both pointers and instructing the
user to pull, performing no flush/seal/revision-store and leaving the state
untouched; with equal base pointers push proceeds (the flush is attempted). -/
theorem push_requires_equal_bases (env : StoreEnv) (s : CmdState)
    (hl : env.getLocalErr = none) (hr : env.getRemoteErr = none) :
    (s.localBase ≠ s.remoteBase →
      runPush env s =
        ⟨s, pushPreconditionError s.localBase s.remoteBase,
         [Ev.getLocalBase, Ev.getRemoteBase],
         Except.error (pushPreconditionError s.localBase s.remoteBase)⟩ ∧
      pushPreconditionError s.localBase s.remoteBase =
        "local base " ++ ptrStr s.localBase ++ " does not match remote base " ++
          ptrStr s.remoteBase ++ ", pull first") ∧
    (s.localBase = s.remoteBase → Ev.flush ∈ (runPush env s).trace) := by
  constructor
  · intro hne
    constructor
    · simp [runPush, hl, hr, hne]
    · rfl
  · intro heq
    cases hf : env.flushErr <;> cases hs : env.sealErr <;>
      cases hst : env.storeRevErr <;> cases hsr : env.setRemoteErr <;>
      cases hsl : env.setLocalErr <;>
      simp [runPush, hl, hr, heq, hf, hs, hst, hsr, hsl]

/-- C1 witness: pushing with local base 1 ≠ remote base 2 yields exactly the
precondition error, no state change, and only the two pointer reads. -/
theorem push_requires_equal_bases_witness :
    runPush envAllOk { localBase := 1, remoteBase := 2, currentRev := none } =
      ⟨{ localBase := 1, remoteBase := 2, currentRev := none },
       pushPreconditionError 1 2, [Ev.getLocalBase, Ev.getRemoteBase],
       Except.error (pushPreconditionError 1 2)⟩ ∧
    Ev.flush ∈ (runPush envAllOk { localBase := 3, remoteBase := 3, currentRev := none }).trace :=
  ⟨((push_requires_equal_bases envAllOk
      { localBase := 1, remoteBase := 2, currentRev := none } rfl rfl).1
      (by decide)).1,
   (push_requires_equal_bases envAllOk
      { localBase := 3, remoteBase := 3, currentRev := none } rfl rfl).2 rfl⟩

/-- C2: the pull control command: equal bases emit the no-op message and
change nothing; unequal bases with an empty worklog fast-forward the local
base to the remote base; unequal bases with a non-empty worklog emit the
worklog and change neither base pointer. -/
theorem pull_base_pointer_update (env : StoreEnv) (s : CmdState)
    (hl : env.getLocalErr = none) (hr : env.getRemoteErr = none) :
    (s.localBase = s.remoteBase →
      runPull env s = ⟨s, pullNoopMsg, [Ev.getLocalBase, Ev.getRemoteBase], Except.ok ()⟩ ∧
      pullNoopMsg = "local base matches remote base, pull is a no-op\n") ∧
    (s.localBase ≠ s.remoteBase → env.newTreeLocalErr = none →
      env.newTreeRemoteErr = none → env.worklogErr = none →
      env.worklog.length = 0 → env.setLocalErr = none →
      (runPull env s).state = { s with localBase := s.remoteBase } ∧
      (runPull env s).res = Except.ok ()) ∧
    (s.localBase ≠ s.remoteBase → env.newTreeLocalErr = none →
      env.newTreeRemoteErr = none → env.worklogErr = none →
      env.worklog.length ≠ 0 →
      (runPull env s).state = s ∧ (runPull env s).out = env.worklog ∧
      (runPull env s).res = Except.ok ()) := by
  refine ⟨fun heq => ⟨by simp [runPull, hl, hr, heq], rfl⟩, ?_, ?_⟩
  · intro hne h1 h2 h3 h4 h5
    constructor <;> simp [runPull, hl, hr, hne, h1, h2, h3, h4, h5]
  · intro hne h1 h2 h3 h4
    refine ⟨?_, ?_, ?_⟩ <;> simp [runPull, hl, hr, hne, h1, h2, h3, h4]

/-- C2 witness: a no-op pull at equal bases 3 = 3; a fast-forward pull from
1 to 2 under the empty worklog; an emitting pull from 1 to 2 under a
non-empty worklog, leaving the bases alone. -/
theorem pull_base_pointer_update_witness :
    (runPull envAllOk { localBase := 3, remoteBase := 3, currentRev := none } =
      ⟨{ localBase := 3, remoteBase := 3, currentRev := none }, pullNoopMsg,
       [Ev.getLocalBase, Ev.getRemoteBase], Except.ok ()⟩) ∧
    ((runPull envAllOk { localBase := 1, remoteBase := 2, currentRev := none }).state =
      { localBase := 2, remoteBase := 2, currentRev := none }) ∧
    ((runPull envWorklog { localBase := 1, remoteBase := 2, currentRev := none }).state =
      { localBase := 1, remoteBase := 2, currentRev := none } ∧
     (runPull envWorklog { localBase := 1, remoteBase := 2, currentRev := none }).out =
      "unlink doc\n") :=
  ⟨((pull_base_pointer_update envAllOk
      { localBase := 3, remoteBase := 3, currentRev := none } rfl rfl).1 rfl).1,
   ((pull_base_pointer_update envAllOk
      { localBase := 1, remoteBase := 2, currentRev := none } rfl rfl).2.1
      (by decide) rfl rfl rfl rfl rfl).1,
   let h := (pull_base_pointer_update envWorklog
      { localBase := 1, remoteBase := 2, currentRev := none } rfl rfl).2.2
      (by decide) rfl rfl rfl (by decide)
   ⟨h.1, h.2.1⟩⟩

/-- C3: a push whose precondition holds and whose store operations all
succeed performs, in order: read both bases, flush, seal, store the new
revision (whose parent is the remote base), install it as the in-memory
current revision, set the remote base and then the local base to the
revision's key; afterwards local base = remote base = that key. -/
theorem push_success_sequence (env : StoreEnv) (s : CmdState)
    (hl : env.getLocalErr = none) (hr : env.getRemoteErr = none)
    (hf : env.flushErr = none) (hs : env.sealErr = none)
    (hst : env.storeRevErr = none) (hsr : env.setRemoteErr = none)
    (hsl : env.setLocalErr = none) (heq : s.localBase = s.remoteBase) :
    (runPush env s).state =
      { localBase := env.revKey, remoteBase := env.revKey,
        currentRev := some { rootKey := env.rootKey, parent := s.remoteBase,
                             host := env.host, when := env.now } } ∧
    (runPush env s).trace =
      [Ev.getLocalBase, Ev.getRemoteBase, Ev.flush, Ev.seal,
       Ev.storeRevision { rootKey := env.rootKey, parent := s.remoteBase,
                          host := env.host, when := env.now },
       Ev.setRevision { rootKey := env.rootKey, parent := s.remoteBase,
                        host := env.host, when := env.now },
       Ev.setRemoteBase env.revKey, Ev.setLocalBase env.revKey] ∧
    (runPush env s).res = Except.ok () := by
  refine ⟨?_, ?_, ?_⟩ <;> simp [runPush, hl, hr, heq, hf, hs, hst, hsr, hsl]

/-- C3 witness: a successful push from equal bases 3 = 3 creates the
revision with parent 3 and advances both bases to its key 91. -/
theorem push_success_sequence_witness :
    (runPush envAllOk { localBase := 3, remoteBase := 3, currentRev := none }).state =
      { localBase := 91, remoteBase := 91,
        currentRev := some { rootKey := 77, parent := 3, host := "h", when := 5 } } ∧
    (runPush envAllOk { localBase := 3, remoteBase := 3, currentRev := none }).res =
      Except.ok () :=
  let h := push_success_sequence envAllOk
    { localBase := 3, remoteBase := 3, currentRev := none }
    rfl rfl rfl rfl rfl rfl rfl rfl
  ⟨h.1, h.2.2⟩

/-- C4: a Walk with a non-empty name sequence on a fid bound to a live tree
node (outside the synthetic root→ctl path): an empty resolved prefix answers
`Enoent`; a proper resolved prefix answers its qids with no state change (no
binding of the new fid); a fully resolved walk answers one qid per name and
binds the new fid to a fresh `fsNode` on the final node, whose reference
count is incremented. -/
theorem walk_longest_resolvable (s : SrvState) (fid newfid : Nat)
    (names : List String) (ref : Nat) (fs : FsNode) (n : NodeData)
    (hfid : alookup s.fids fid = some (FidAux.node ref))
    (hfs : alookup s.fsNodes ref = some fs)
    (hn : alookup s.tree.nodes fs.nodeId = some n)
    (hlive : n.unlinked = false)
    (hne : names ≠ [])
    (hctl : ¬(fs.nodeId = s.tree.rootId ∧ names = ["ctl"])) :
    (treeWalk s.tree fs.nodeId names = [] →
      opsWalk s fid newfid names = (s, [Resp.rerror Enoent])) ∧
    (treeWalk s.tree fs.nodeId names ≠ [] →
     (treeWalk s.tree fs.nodeId names).length < names.length →
      opsWalk s fid newfid names =
        (s, [Resp.rwalk ((treeWalk s.tree fs.nodeId names).filterMap
          (fun id => (alookup s.tree.nodes id).map (nodeQid id)))])) ∧
    (∀ lastId m,
      (treeWalk s.tree fs.nodeId names).length = names.length →
      (treeWalk s.tree fs.nodeId names).getLast? = some lastId →
      alookup s.tree.nodes lastId = some m →
      (∀ id ∈ treeWalk s.tree fs.nodeId names, (alookup s.tree.nodes id).isSome) →
      opsWalk s fid newfid names =
        ({ s with tree := refNode s.tree lastId,
                  fsNodes := aset s.fsNodes s.nextFs
                    { nodeId := lastId, dirb := [], lock := none },
                  nextFs := s.nextFs + 1,
                  fids := aset s.fids newfid (FidAux.node s.nextFs) },
         [Resp.rwalk ((treeWalk s.tree fs.nodeId names).filterMap
           (fun id => (alookup s.tree.nodes id).map (nodeQid id)))]) ∧
      ((treeWalk s.tree fs.nodeId names).filterMap
         (fun id => (alookup s.tree.nodes id).map (nodeQid id))).length = names.length ∧
      alookup (refNode s.tree lastId).nodes lastId =
        some { m with refcount := m.refcount + 1 } ∧
      alookup (aset s.fids newfid (FidAux.node s.nextFs)) newfid =
        some (FidAux.node s.nextFs) ∧
      alookup (aset s.fsNodes s.nextFs { nodeId := lastId, dirb := [], lock := none })
        s.nextFs = some { nodeId := lastId, dirb := [], lock := none }) := by
  have hroot : ((fs.nodeId = s.tree.rootId : Bool) && (names = ["ctl"] : Bool)) = false := by
    rcases Decidable.em (fs.nodeId = s.tree.rootId) with h1 | h1 <;>
      rcases Decidable.em (names = ["ctl"]) with h2 | h2 <;>
      simp [h1, h2] at hctl ⊢
  refine ⟨?_, ?_, ?_⟩
  · intro hw
    simp [opsWalk, hfid, hfs, hn, hlive, hne, hroot, hw]
  · intro hw hlt
    have : ¬ (treeWalk s.tree fs.nodeId names).length = names.length := Nat.ne_of_lt hlt
    simp [opsWalk, hfid, hfs, hn, hlive, hne, hroot, hw, this]
  · intro lastId m hlen hlast hm hall
    have hwne : treeWalk s.tree fs.nodeId names ≠ [] := by
      intro h0
      rw [h0] at hlast
      cases hlast
    refine ⟨?_, ?_, ?_, ?_, ?_⟩
    · simp [opsWalk, hfid, hfs, hn, hlive, hne, hroot, hwne, hlen, hlast]
    · rw [length_filterMap_of_all_isSome _ _ (fun id hid => by
        obtain ⟨v, hv⟩ := Option.isSome_iff_exists.mp (hall id hid)
        simp [hv])]
      exact hlen
    · simp [refNode, alookup_aupd_self, hm]
    · simp [alookup, aset, List.find?]
    · simp [alookup, aset, List.find?]

/-- C4 witness, on `sampleState` from the root fid 1: the full walk `d/e`
binds new fid 7 to node 4 with its reference count bumped from 0 to 1; the
walk `x` resolves nothing and answers `Enoent`; the walk `d/x` resolves the
proper prefix `d`, answers one qid and leaves the state (hence fid 7)
untouched. -/
theorem walk_longest_resolvable_witness :
    opsWalk sampleState 1 7 ["d", "e"] =
      ({ sampleState with
           tree := refNode sampleState.tree 4,
           fsNodes := aset sampleState.fsNodes 104
             { nodeId := 4, dirb := [], lock := none },
           nextFs := 105,
           fids := aset sampleState.fids 7 (FidAux.node 104) },
       [Resp.rwalk [{ qtype := QTDIR, version := 4, path := 3 },
                    { qtype := 0, version := 1, path := 4 }]]) ∧
    alookup (refNode sampleState.tree 4).nodes 4 =
      some { mode := 0o644, name := "e", size := 7, mtime := 14, version := 1,
             parent := 3, children := [], unlinked := false, refcount := 1 } ∧
    opsWalk sampleState 1 7 ["x"] = (sampleState, [Resp.rerror Enoent]) ∧
    opsWalk sampleState 1 7 ["d", "x"] =
      (sampleState, [Resp.rwalk [{ qtype := QTDIR, version := 4, path := 3 }]]) := by
  have h := walk_longest_resolvable sampleState 1 7 ["d", "e"] 100
    { nodeId := 0, dirb := [], lock := none }
    { mode := DMDIR ||| 0o755, name := "", size := 0, mtime := 10, version := 7,
      parent := 0, children := [("a", 1), ("lock", 2), ("d", 3)],
      unlinked := false, refcount := 1 }
    (by decide) (by decide) (by decide) (by decide) (by decide) (by decide)
  have h3 := h.2.2 4
    { mode := 0o644, name := "e", size := 7, mtime := 14, version := 1,
      parent := 3, children := [], unlinked := false, refcount := 0 }
    (by decide) (by decide) (by decide) (by decide)
  have hx := walk_longest_resolvable sampleState 1 7 ["x"] 100
    { nodeId := 0, dirb := [], lock := none }
    { mode := DMDIR ||| 0o755, name := "", size := 0, mtime := 10, version := 7,
      parent := 0, children := [("a", 1), ("lock", 2), ("d", 3)],
      unlinked := false, refcount := 1 }
    (by decide) (by decide) (by decide) (by decide) (by decide) (by decide)
  have hdx := walk_longest_resolvable sampleState 1 7 ["d", "x"] 100
    { nodeId := 0, dirb := [], lock := none }
    { mode := DMDIR ||| 0o755, name := "", size := 0, mtime := 10, version := 7,
      parent := 0, children := [("a", 1), ("lock", 2), ("d", 3)],
      unlinked := false, refcount := 1 }
    (by decide) (by decide) (by decide) (by decide) (by decide) (by decide)
  refine ⟨?_, h3.2.2.1, hx.1 (by decide), ?_⟩
  · rw [h3.1]
    decide
  · rw [hdx.2.1 (by decide) (by decide)]
    decide

/-- C5 helper: decomposing a mode's unsupported-bit content. -/
theorem land_unsupported_iff (mode : Nat) :
    mode &&& 0x5FBC0000 = 0 ↔
      (mode &&& DMAPPEND = 0 ∧ mode &&& DMMOUNT = 0 ∧ mode &&& DMAUTH = 0 ∧
       mode &&& DMTMP = 0 ∧ mode &&& DMSYMLINK = 0 ∧ mode &&& DMLINK = 0 ∧
       mode &&& DMDEVICE = 0 ∧ mode &&& DMNAMEDPIPE = 0 ∧ mode &&& DMSOCKET = 0 ∧
       mode &&& DMSETUID = 0 ∧ mode &&& DMSETGID = 0) := by
  rw [show (0x5FBC0000 : Nat) = DMAPPEND ||| (DMMOUNT ||| (DMAUTH ||| (DMTMP |||
    (DMSYMLINK ||| (DMLINK ||| (DMDEVICE ||| (DMNAMEDPIPE ||| (DMSOCKET |||
    (DMSETUID ||| DMSETGID))))))))) from by decide]
  simp [land_lor_eq_zero_iff, and_assoc]

/-- C5 helper: the bits outside permission+DMDIR+DMEXCL split into the
unsupported bits and the unknown bits. -/
theorem land_outside_recognized (mode : Nat) :
    mode &&& 0x5FFFFE00 = (mode &&& 0x5FBC0000) ||| (mode &&& unknownMask) := by
  rw [← land_lor_right, show (0x5FBC0000 ||| unknownMask : Nat) = 0x5FFFFE00 from by decide]

/-- C5 helper: a failure of the shared bit checks makes `checkMode` fail for
any node argument. -/
theorem checkMode_of_bits (nv : Option NodeView) (mode : Nat)
    (h : ∃ e, checkModeBits mode = Except.error e) :
    ∃ e, checkMode nv mode = Except.error e := by
  obtain ⟨e, he⟩ := h
  cases nv with
  | none => exact ⟨e, by simp [checkMode, he]⟩
  | some v =>
    simp only [checkMode]
    split
    · exact ⟨_, rfl⟩
    · split
      · exact ⟨_, rfl⟩
      · exact ⟨e, he⟩

/-- C5: mode policing rejects each unsupported bit (append, mount, auth,
temp, symlink, hard link, device, named pipe, socket, setuid, setgid) with
its bit-specific message; a Create with the symlink bit answers "symbolic
links are not supported"; any bit outside the nine permission bits, the
directory bit and the exclusive-use bit is rejected; directory↔file
transitions are rejected on Wstat; and a mode of only recognized bits
passes. -/
theorem checkMode_policing :
    (∀ (nv : Option NodeView) (mode b : Nat) (msg : String),
      (b, msg) ∈ unsupportedModes → mode &&& b ≠ 0 →
      ∃ e, checkMode nv mode = Except.error e) ∧
    (∀ (mode b : Nat) (msg : String),
      (b, msg) ∈ unsupportedModes → mode &&& b ≠ 0 →
      (∀ q ∈ unsupportedModes, mode &&& q.1 ≠ 0 → q = (b, msg)) →
      checkMode none mode = Except.error msg) ∧
    (∀ (s : SrvState) (fid ref : Nat) (fs : FsNode) (parent : NodeData) (name : String),
      alookup s.fids fid = some (FidAux.node ref) →
      alookup s.fsNodes ref = some fs →
      alookup s.tree.nodes fs.nodeId = some parent →
      parent.unlinked = false →
      opsCreate s fid name (0o644 ||| DMSYMLINK) =
        (s, [Resp.rerror "symbolic links are not supported"])) ∧
    (∀ (nv : Option NodeView) (mode : Nat), mode &&& 0x5FFFFE00 ≠ 0 →
      ∃ e, checkMode nv mode = Except.error e) ∧
    (∀ (v : NodeView) (mode : Nat), v.isDir = true → mode &&& DMDIR = 0 →
      checkMode (some v) mode = Except.error "a directory cannot become a regular file") ∧
    (∀ (v : NodeView) (mode : Nat), v.isDir = false → mode &&& DMDIR ≠ 0 →
      checkMode (some v) mode = Except.error "a regular file cannot become a directory") ∧
    (∀ mode : Nat, mode &&& 0x5FFFFE00 = 0 → mode < 2 ^ 32 →
      checkMode none mode = Except.ok () ∧
      ∀ v : NodeView, v.isDir = (mode &&& DMDIR != 0) →
        checkMode (some v) mode = Except.ok ()) := by
  refine ⟨?_, ?_, ?_, ?_, ?_, ?_, ?_⟩
  · intro nv mode b msg hmem hb
    apply checkMode_of_bits
    have hsome : (unsupportedModes.find? (fun q => mode &&& q.1 != 0)).isSome :=
      List.find?_isSome.mpr ⟨(b, msg), hmem, by simp [hb]⟩
    obtain ⟨q, hq⟩ := Option.isSome_iff_exists.mp hsome
    exact ⟨q.2, by simp [checkModeBits, hq]⟩
  · intro mode b msg hmem hb huniq
    have hfind : unsupportedModes.find? (fun q => mode &&& q.1 != 0) = some (b, msg) :=
      find_eq_of_unique _ _ _ hmem (by simp [hb])
        (fun y hy hp => huniq y hy (by simpa using hp))
    simp [checkMode, checkModeBits, hfind]
  · intro s fid ref fs parent name hfid hfs hp hul
    have hcm : checkMode none (0o644 ||| DMSYMLINK) =
        Except.error "symbolic links are not supported" := by decide
    simp [opsCreate, hfid, hfs, hp, hul, hcm]
  · intro nv mode hM
    apply checkMode_of_bits
    cases hfind : unsupportedModes.find? (fun q => mode &&& q.1 != 0) with
    | some q => exact ⟨q.2, by simp [checkModeBits, hfind]⟩
    | none =>
      have hall := List.find?_eq_none.mp hfind
      have hU : mode &&& 0x5FBC0000 = 0 := by
        rw [land_unsupported_iff]
        refine ⟨?_, ?_, ?_, ?_, ?_, ?_, ?_, ?_, ?_, ?_, ?_⟩ <;>
          first
          | simpa using hall (DMAPPEND, "append-only files are not supported")
              (by simp [unsupportedModes])
          | simpa using hall (DMMOUNT, "mounted channels are not supported")
              (by simp [unsupportedModes])
          | simpa using hall (DMAUTH, "authentication files are not supported")
              (by simp [unsupportedModes])
          | simpa using hall (DMTMP, "temporary files are not supported")
              (by simp [unsupportedModes])
          | simpa using hall (DMSYMLINK, "symbolic links are not supported")
              (by simp [unsupportedModes])
          | simpa using hall (DMLINK, "hard links are not supported")
              (by simp [unsupportedModes])
          | simpa using hall (DMDEVICE, "device files are not supported")
              (by simp [unsupportedModes])
          | simpa using hall (DMNAMEDPIPE, "named pipes are not supported")
              (by simp [unsupportedModes])
          | simpa using hall (DMSOCKET, "sockets are not supported")
              (by simp [unsupportedModes])
          | simpa using hall (DMSETUID, "setuid files are not supported")
              (by simp [unsupportedModes])
          | simpa using hall (DMSETGID, "setgid files are not supported")
              (by simp [unsupportedModes])
      have hV : mode &&& unknownMask ≠ 0 := by
        rw [land_outside_recognized, hU] at hM
        simpa using hM
      exact ⟨"unrecognized mode bits: " ++ String.mk (Nat.toDigits 2 (mode &&& unknownMask)),
        by simp [checkModeBits, hfind, hV]⟩
  · intro v mode hdir hbit
    simp [checkMode, hdir, hbit]
  · intro v mode hdir hbit
    simp [checkMode, hdir, hbit]
  · intro mode hM hlt
    have hUV := (lor_eq_zero_iff _ _).mp ((land_outside_recognized mode) ▸ hM)
    have hU := (land_unsupported_iff mode).mp hUV.1
    have hV := hUV.2
    obtain ⟨h1, h2, h3, h4, h5, h6, h7, h8, h9, h10, h11⟩ := hU
    have hfind : unsupportedModes.find? (fun q => mode &&& q.1 != 0) = none := by
      apply List.find?_eq_none.mpr
      intro x hx
      simp only [unsupportedModes, List.mem_cons, List.mem_singleton] at hx
      rcases hx with rfl | rfl | rfl | rfl | rfl | rfl | rfl | rfl | rfl | rfl | rfl | hx
      · simp [h1]
      · simp [h2]
      · simp [h3]
      · simp [h4]
      · simp [h5]
      · simp [h6]
      · simp [h7]
      · simp [h8]
      · simp [h9]
      · simp [h10]
      · simp [h11]
      · cases hx
    constructor
    · simp [checkMode, checkModeBits, hfind, hV]
    · intro v hvdir
      cases hd : (mode &&& DMDIR == 0) with
      | false =>
        have hd2 : mode &&& DMDIR ≠ 0 := by simpa using hd
        simp [checkMode, checkModeBits, hfind, hV, hvdir, hd, hd2]
      | true =>
        have hd2 : mode &&& DMDIR = 0 := by simpa using hd
        simp [checkMode, checkModeBits, hfind, hV, hvdir, hd, hd2]


/-- C5 witness: create mode `0644|DMSYMLINK` is rejected with the symlink
message (both at `checkMode` and through `ops.Create` on the sample state);
`0644` passes for a file and is rejected as a mode change turning a
directory into a regular file; mode bit `DMSETUID` is outside the
recognized set and rejects. -/
theorem checkMode_policing_witness :
    checkMode none (0o644 ||| DMSYMLINK) =
      Except.error "symbolic links are not supported" ∧
    opsCreate sampleState 1 "bad" (0o644 ||| DMSYMLINK) =
      (sampleState, [Resp.rerror "symbolic links are not supported"]) ∧
    checkMode none 0o644 = Except.ok () ∧
    checkMode (some { isDir := true }) 0o644 =
      Except.error "a directory cannot become a regular file" ∧
    (∃ e, checkMode none (DMSETUID ||| 0o644) = Except.error e) :=
  ⟨checkMode_policing.2.1 (0o644 ||| DMSYMLINK) DMSYMLINK
      "symbolic links are not supported" (by decide) (by decide) (by decide),
   checkMode_policing.2.2.1 sampleState 1 100 { nodeId := 0, dirb := [], lock := none }
      { mode := DMDIR ||| 0o755, name := "", size := 0, mtime := 10, version := 7,
        parent := 0, children := [("a", 1), ("lock", 2), ("d", 3)],
        unlinked := false, refcount := 1 } "bad"
      (by decide) (by decide) (by decide) (by decide),
   (checkMode_policing.2.2.2.2.2.2 0o644 (by decide) (by decide)).1,
   checkMode_policing.2.2.2.2.1 { isDir := true } 0o644 rfl (by decide),
   checkMode_policing.2.2.2.1 none (DMSETUID ||| 0o644) (by decide)⟩

/-- C6: every 9P request (Walk with names, Open, Create, Read, Write,
Remove, Stat, Wstat) on a fid whose node is unlinked answers the
distinguished "fid points to unlinked node" error and leaves the whole
dispatcher state (in particular the tree) unchanged.  For Open the source's
missing return after the `ORCLOSE` rejection prepends that extra error
response. -/
theorem unlinked_fid_rejected (s : SrvState) (fid : Nat) (ref : Nat)
    (fs : FsNode) (n : NodeData)
    (hfid : alookup s.fids fid = some (FidAux.node ref))
    (hfs : alookup s.fsNodes ref = some fs)
    (hn : alookup s.tree.nodes fs.nodeId = some n)
    (hul : n.unlinked = true) :
    (∀ newfid names, opsWalk s fid newfid names = (s, [Resp.rerror Eunlinked])) ∧
    (∀ mode, opsOpen s fid mode =
      (s, (if mode &&& ORCLOSE != 0 then [Resp.rerror Eperm] else []) ++
          [Resp.rerror Eunlinked])) ∧
    (∀ name perm, opsCreate s fid name perm = (s, [Resp.rerror Eunlinked])) ∧
    (∀ now off count, count ≤ s.msize →
      opsRead s now fid off count = (s, [Resp.rerror Eunlinked])) ∧
    (∀ now off data, opsWrite s now fid off data = (s, [Resp.rerror Eunlinked])) ∧
    (opsRemove s fid = (s, [Resp.rerror Eunlinked])) ∧
    (opsStat s fid = (s, [Resp.rerror Eunlinked])) ∧
    (∀ d, opsWstat s fid d = (s, [Resp.rerror Eunlinked])) := by
  refine ⟨?_, ?_, ?_, ?_, ?_, ?_, ?_, ?_⟩
  · intro newfid names
    simp [opsWalk, hfid, hfs, hn, hul]
  · intro mode
    simp [opsOpen, hfid, hfs, hn, hul]
  · intro name perm
    simp [opsCreate, hfid, hfs, hn, hul]
  · intro now off count hcount
    have : ¬ count > s.msize := by omega
    simp [opsRead, hfid, hfs, hn, hul, this]
  · intro now off data
    simp [opsWrite, hfid, hfs, hn, hul]
  · simp [opsRemove, hfid, hfs, hn, hul]
  · simp [opsStat, hfid, hfs, hn, hul]
  · intro d
    simp [opsWstat, hfid, hfs, hn, hul]

/-- C6 witness: fid 3 of the sample state points at unlinked node 5; all
eight request types answer `Eunlinked` and change nothing. -/
theorem unlinked_fid_rejected_witness :
    opsWalk sampleState 3 7 ["a"] = (sampleState, [Resp.rerror Eunlinked]) ∧
    opsOpen sampleState 3 0 = (sampleState, [Resp.rerror Eunlinked]) ∧
    opsCreate sampleState 3 "x" 0o644 = (sampleState, [Resp.rerror Eunlinked]) ∧
    opsRead sampleState 99 3 0 100 = (sampleState, [Resp.rerror Eunlinked]) ∧
    opsWrite sampleState 99 3 0 "hi" = (sampleState, [Resp.rerror Eunlinked]) ∧
    opsRemove sampleState 3 = (sampleState, [Resp.rerror Eunlinked]) ∧
    opsStat sampleState 3 = (sampleState, [Resp.rerror Eunlinked]) ∧
    opsWstat sampleState 3 dontCareWstat = (sampleState, [Resp.rerror Eunlinked]) := by
  have h := unlinked_fid_rejected sampleState 3 101
    { nodeId := 5, dirb := [], lock := none }
    { mode := 0o644, name := "zombie", size := 1, mtime := 15, version := 9,
      parent := 0, children := [], unlinked := true, refcount := 1 }
    (by decide) (by decide) (by decide) (by decide)
  refine ⟨h.1 7 ["a"], ?_, h.2.2.1 "x" 0o644, h.2.2.2.1 99 0 100 (by decide),
          h.2.2.2.2.1 99 0 "hi", h.2.2.2.2.2.1, h.2.2.2.2.2.2.1, h.2.2.2.2.2.2.2 _⟩
  · have ho := h.2.1 0
    simpa using ho


/-- C7 (amended): the dispatcher blanks atime and muid before the
illegal-field check, so those two fields never cause failure (a Wstat
requesting only atime/muid changes succeeds); a Wstat still requesting a
type, dev or qid change is rejected with a permission error, and no node
attribute is modified apart from a truncation requested by an accompanying
length change, which the source applies before the check. -/
theorem wstat_clears_atime_muid (s : SrvState) (fid ref : Nat)
    (fs : FsNode) (n : NodeData)
    (hfid : alookup s.fids fid = some (FidAux.node ref))
    (hfs : alookup s.fsNodes ref = some fs)
    (hn : alookup s.tree.nodes fs.nodeId = some n)
    (hul : n.unlinked = false) :
    (∀ d : PDir, ({ d with atime := 0xFFFFFFFF, muid := "" } : PDir).changeIllegalFields =
        (d.changeType || d.changeDev || d.changeQid)) ∧
    (∀ d : PDir, ¬d.changeType → ¬d.changeDev → ¬d.changeQid → ¬d.changeLength →
      ¬d.changeName → ¬d.changeMtime → ¬d.changeMode → ¬d.changeGID →
      opsWstat s fid d = (s, [Resp.rwstat])) ∧
    (∀ d : PDir, (d.changeType ∨ d.changeDev ∨ d.changeQid) → ¬d.changeLength →
      opsWstat s fid d = (s, [Resp.rerror Eperm])) ∧
    (∀ d : PDir, (d.changeType ∨ d.changeDev ∨ d.changeQid) → d.changeLength →
      n.isDir = false →
      opsWstat s fid d =
        ({ s with tree := truncateNode s.tree fs.nodeId d.length },
         [Resp.rerror Eperm])) := by
  refine ⟨?_, ?_, ?_, ?_⟩
  · intro d
    simp [PDir.changeIllegalFields, PDir.changeType, PDir.changeDev, PDir.changeQid,
          PDir.changeAtime, PDir.changeMuid]
  · intro d ht hd hq hl hname hmtime hmode hgid
    simp only [Bool.not_eq_true] at ht hd hq hl hname hmtime hmode hgid
    simp only [PDir.changeType, PDir.changeDev, PDir.changeQid, PDir.changeLength,
      PDir.changeName, PDir.changeMtime, PDir.changeMode, PDir.changeGID,
      bne_eq_false_iff_eq] at ht hd hq hl hname hmtime hmode hgid
    simp [opsWstat, hfid, hfs, hn, hul, PDir.changeIllegalFields,
          PDir.changeType, PDir.changeDev, PDir.changeQid, PDir.changeAtime,
          PDir.changeMuid, PDir.changeLength, PDir.changeName, PDir.changeMtime,
          PDir.changeMode, PDir.changeGID, ht, hd, hq, hl, hname, hmtime, hmode, hgid]
  · intro d hill hl
    simp only [Bool.not_eq_true, PDir.changeLength, bne_eq_false_iff_eq] at hl
    rcases hill with h | h | h
    · simp only [PDir.changeType, bne_iff_ne] at h
      simp [opsWstat, hfid, hfs, hn, hul, hl, PDir.changeIllegalFields, PDir.changeType,
            PDir.changeDev, PDir.changeQid, PDir.changeAtime, PDir.changeMuid,
            PDir.changeLength, h]
    · simp only [PDir.changeDev, bne_iff_ne] at h
      simp [opsWstat, hfid, hfs, hn, hul, hl, PDir.changeIllegalFields, PDir.changeType,
            PDir.changeDev, PDir.changeQid, PDir.changeAtime, PDir.changeMuid,
            PDir.changeLength, h]
    · simp only [PDir.changeQid, bne_iff_ne] at h
      simp [opsWstat, hfid, hfs, hn, hul, hl, PDir.changeIllegalFields, PDir.changeType,
            PDir.changeDev, PDir.changeQid, PDir.changeAtime, PDir.changeMuid,
            PDir.changeLength, h]
  · intro d hill hl hdir
    simp only [PDir.changeLength, bne_iff_ne] at hl
    rcases hill with h | h | h
    · simp only [PDir.changeType, bne_iff_ne] at h
      simp [opsWstat, hfid, hfs, hn, hul, hl, hdir, PDir.changeIllegalFields,
            PDir.changeType, PDir.changeDev, PDir.changeQid, PDir.changeAtime,
            PDir.changeMuid, PDir.changeLength, h]
    · simp only [PDir.changeDev, bne_iff_ne] at h
      simp [opsWstat, hfid, hfs, hn, hul, hl, hdir, PDir.changeIllegalFields,
            PDir.changeType, PDir.changeDev, PDir.changeQid, PDir.changeAtime,
            PDir.changeMuid, PDir.changeLength, h]
    · simp only [PDir.changeQid, bne_iff_ne] at h
      simp [opsWstat, hfid, hfs, hn, hul, hl, hdir, PDir.changeIllegalFields,
            PDir.changeType, PDir.changeDev, PDir.changeQid, PDir.changeAtime,
            PDir.changeMuid, PDir.changeLength, h]


/-- C7 counterexample: a Wstat on file fid 4 (node 1, size 5) requesting
both a length change to 0 and an illegal qid change is rejected with the
permission error, yet the node has been truncated (size 5 → 0, version
2 → 3) — refuting "no node attribute is modified" as stated. -/
theorem wstat_truncates_despite_rejection :
    opsWstat sampleState 4
      { dontCareWstat with length := 0, qid := { qtype := 0xFF, version := 0xFFFFFFFF, path := 7 } } =
      ({ sampleState with tree := truncateNode sampleState.tree 1 0 },
       [Resp.rerror Eperm]) ∧
    alookup sampleState.tree.nodes 1 =
      some { mode := 0o644, name := "a", size := 5, mtime := 11, version := 2,
             parent := 0, children := [], unlinked := false, refcount := 1 } ∧
    alookup (truncateNode sampleState.tree 1 0).nodes 1 =
      some { mode := 0o644, name := "a", size := 0, mtime := 11, version := 3,
             parent := 0, children := [], unlinked := false, refcount := 1 } := by
  decide

/-- C7 witness: on file fid 4 of the sample state, a Wstat requesting only
atime and muid changes succeeds silently; one requesting an illegal qid
change without a length change is rejected with nothing modified; the
blanked record's illegal-field check is exactly the type/dev/qid check. -/
theorem wstat_clears_atime_muid_witness :
    opsWstat sampleState 4 { dontCareWstat with atime := 123, muid := "bob" } =
      (sampleState, [Resp.rwstat]) ∧
    opsWstat sampleState 4
      { dontCareWstat with qid := { qtype := 0xFF, version := 0xFFFFFFFF, path := 7 } } =
      (sampleState, [Resp.rerror Eperm]) ∧
    ({ ({ dontCareWstat with atime := 123, muid := "bob" } : PDir) with
       atime := 0xFFFFFFFF, muid := "" } : PDir).changeIllegalFields = false := by
  have h := wstat_clears_atime_muid sampleState 4 102
    { nodeId := 1, dirb := [], lock := none }
    { mode := 0o644, name := "a", size := 5, mtime := 11, version := 2,
      parent := 0, children := [], unlinked := false, refcount := 1 }
    (by decide) (by decide) (by decide) (by decide)
  refine ⟨?_, ?_, ?_⟩
  · exact h.2.1 { dontCareWstat with atime := 123, muid := "bob" }
      (by decide) (by decide) (by decide) (by decide) (by decide) (by decide)
      (by decide) (by decide)
  · exact h.2.2.1
      { dontCareWstat with qid := { qtype := 0xFF, version := 0xFFFFFFFF, path := 7 } }
      (by right; right; decide) (by decide)
  · have := h.1 { dontCareWstat with atime := 123, muid := "bob" }
    simpa using this

/-- Removing a key makes its lookup fail. -/
theorem alookup_adel_self {α : Type} (l : List (Nat × α)) (k : Nat) :
    alookup (adel l k) k = none := by
  have hfind : (adel l k).find? (fun q => q.1 == k) = none := by
    apply List.find?_eq_none.mpr
    intro x hx
    have hx2 := (List.mem_filter.mp hx).2
    simpa using hx2
  simp [alookup, hfind]

/-- Setting a key makes its lookup return the value. -/
theorem alookup_aset_self {α : Type} (l : List (Nat × α)) (k : Nat) (v : α) :
    alookup (aset l k v) k = some v := by
  simp [alookup, aset, List.find?]

/-- C8: opening a file whose qid path carries `DMEXCL` in the side mode
table: if the lock table holds the path, the open answers "file already
locked" and changes nothing; if it is free, the opening fid acquires the
lock and the open succeeds with the `QTEXCL` qid type; Clunk and FidDestroy
release the lock held through the fid. -/
theorem exclusive_open_lock (s : SrvState) (fid ref : Nat) (fs : FsNode) (n : NodeData)
    (hfid : alookup s.fids fid = some (FidAux.node ref))
    (hfs : alookup s.fsNodes ref = some fs)
    (hn : alookup s.tree.nodes fs.nodeId = some n)
    (hul : n.unlinked = false)
    (hex : moreMode s fs.nodeId &&& DMEXCL ≠ 0) :
    (∀ mode owner, mode &&& ORCLOSE = 0 → alookup s.locks fs.nodeId = some owner →
      opsOpen s fid mode = (s, [Resp.rerror "file already locked"])) ∧
    (∀ mode, mode &&& ORCLOSE = 0 → alookup s.locks fs.nodeId = none →
      (opsOpen s fid mode).1.locks = aset s.locks fs.nodeId fid ∧
      alookup (opsOpen s fid mode).1.locks fs.nodeId = some fid ∧
      (opsOpen s fid mode).2 =
        [Resp.ropen { nodeQid fs.nodeId n with
                      qtype := (nodeQid fs.nodeId n).qtype ||| QTEXCL }]) ∧
    (∀ p, fs.lock = some p →
      opsClunk s fid =
        ({ s with locks := unlockNode s.locks p,
                  fsNodes := aupd s.fsNodes ref (fun f => { f with lock := none }) },
         [Resp.rclunk]) ∧
      alookup (unlockNode s.locks p) p = none) ∧
    (∀ p, fs.lock = some p →
      (opsFidDestroy s fid).locks = unlockNode s.locks p ∧
      alookup (opsFidDestroy s fid).locks p = none) := by
  refine ⟨?_, ?_, ?_, ?_⟩
  · intro mode owner hmode hlocked
    simp [opsOpen, hfid, hfs, hn, hul, hmode, nodeQid, hex, lockNode, hlocked]
  · intro mode hmode hfree
    have hlock : lockNode s.locks fid fs.nodeId = some (aset s.locks fs.nodeId fid) := by
      simp [lockNode, hfree]
    have hL : (opsOpen s fid mode).1.locks = aset s.locks fs.nodeId fid := by
      by_cases hd : n.isDir
      all_goals by_cases ht : mode &&& OTRUNC != 0
      all_goals
        simp [opsOpen, openRest, hfid, hfs, hn, hul, hmode, nodeQid, hex, hlock, hd, ht]
    have hR : (opsOpen s fid mode).2 =
        [Resp.ropen { nodeQid fs.nodeId n with
                      qtype := (nodeQid fs.nodeId n).qtype ||| QTEXCL }] := by
      by_cases hd : n.isDir
      all_goals by_cases ht : mode &&& OTRUNC != 0
      all_goals
        simp [opsOpen, openRest, hfid, hfs, hn, hul, hmode, nodeQid, hex, hlock, hd, ht]
    exact ⟨hL, hL ▸ alookup_aset_self s.locks fs.nodeId fid, hR⟩
  · intro p hp
    refine ⟨?_, alookup_adel_self s.locks p⟩
    simp [opsClunk, hfid, hfs, hp, unlockNode]
  · intro p hp
    constructor
    · simp [opsFidDestroy, hfid, hfs, hp, unlockNode]
    · simp [opsFidDestroy, hfid, hfs, hp, unlockNode, alookup_adel_self]

/-- C8 witness, the spec's scenario: client A (fid 5) opens `/lock` and
acquires the lock; client B walks a fresh fid 6 to the file and its open is
refused with "file already locked"; A clunks, releasing the lock; B's retry
succeeds and B now owns the lock. -/
theorem exclusive_open_lock_witness :
    (opsOpen sampleState 5 0).2 =
      [Resp.ropen { qtype := QTEXCL, version := 1, path := 2 }] ∧
    alookup (opsOpen sampleState 5 0).1.locks 2 = some 5 ∧
    opsOpen (opsWalk (opsOpen sampleState 5 0).1 1 6 ["lock"]).1 6 0 =
      ((opsWalk (opsOpen sampleState 5 0).1 1 6 ["lock"]).1,
       [Resp.rerror "file already locked"]) ∧
    alookup (opsClunk (opsWalk (opsOpen sampleState 5 0).1 1 6 ["lock"]).1 5).1.locks 2 =
      none ∧
    (opsOpen (opsClunk (opsWalk (opsOpen sampleState 5 0).1 1 6 ["lock"]).1 5).1 6 0).2 =
      [Resp.ropen { qtype := QTEXCL, version := 1, path := 2 }] ∧
    alookup
      (opsOpen (opsClunk (opsWalk (opsOpen sampleState 5 0).1 1 6 ["lock"]).1 5).1 6 0).1.locks
      2 = some 6 := by
  refine ⟨by decide, by decide, ?_, by decide, by decide, by decide⟩
  exact (exclusive_open_lock (opsWalk (opsOpen sampleState 5 0).1 1 6 ["lock"]).1 6 104
    { nodeId := 2, dirb := [], lock := none }
    { mode := 0o644, name := "lock", size := 0, mtime := 12, version := 1,
      parent := 0, children := [], unlinked := false, refcount := 2 }
    (by decide) (by decide) (by decide) (by decide) (by decide)).1 0 5
    (by decide) (by decide)


/-- C9: the synthetic control fid refuses Walk with names, Create, Remove
and Wstat with the permission error; only the zero-name clone succeeds
(binding the new fid to the ctl aux); and walking the single name "ctl"
from the root fid binds the new fid to the control fid, answering the ctl
qid. -/
theorem ctl_fid_restrictions (s : SrvState) (fid : Nat)
    (hfid : alookup s.fids fid = some FidAux.ctl) :
    (∀ newfid names, names ≠ [] →
      opsWalk s fid newfid names = (s, [Resp.rerror Eperm])) ∧
    (∀ newfid, opsWalk s fid newfid [] =
      ({ s with fids := aset s.fids newfid FidAux.ctl }, [Resp.rwalk []])) ∧
    (∀ name perm, opsCreate s fid name perm = (s, [Resp.rerror Eperm])) ∧
    (opsRemove s fid = (s, [Resp.rerror Eperm])) ∧
    (∀ d, opsWstat s fid d = (s, [Resp.rerror Eperm])) ∧
    (∀ rootfid newfid ref fs n,
      alookup s.fids rootfid = some (FidAux.node ref) →
      alookup s.fsNodes ref = some fs →
      alookup s.tree.nodes fs.nodeId = some n →
      n.unlinked = false →
      fs.nodeId = s.tree.rootId →
      opsWalk s rootfid newfid ["ctl"] =
        ({ s with fids := aset s.fids newfid FidAux.ctl }, [Resp.rwalk [s.ctlQid]]) ∧
      alookup (aset s.fids newfid FidAux.ctl) newfid = some FidAux.ctl) := by
  refine ⟨?_, ?_, ?_, ?_, ?_, ?_⟩
  · intro newfid names hne
    simp [opsWalk, hfid, hne]
  · intro newfid
    simp [opsWalk, hfid]
  · intro name perm
    simp [opsCreate, hfid]
  · simp [opsRemove, hfid]
  · intro d
    simp [opsWstat, hfid]
  · intro rootfid newfid ref fs n hroot hfs hn hul hisroot
    rw [hisroot] at hn
    refine ⟨?_, alookup_aset_self s.fids newfid FidAux.ctl⟩
    simp [opsWalk, hroot, hfs, hisroot, hn, hul]

/-- C9 witness on the sample state: fid 2 is the ctl fid; all four
restricted requests answer the permission error, the zero-name clone and
the root walk of "ctl" yield the control fid. -/
theorem ctl_fid_restrictions_witness :
    opsWalk sampleState 2 7 ["a"] = (sampleState, [Resp.rerror Eperm]) ∧
    opsWalk sampleState 2 7 [] =
      ({ sampleState with fids := aset sampleState.fids 7 FidAux.ctl },
       [Resp.rwalk []]) ∧
    opsCreate sampleState 2 "x" 0o644 = (sampleState, [Resp.rerror Eperm]) ∧
    opsRemove sampleState 2 = (sampleState, [Resp.rerror Eperm]) ∧
    opsWstat sampleState 2 dontCareWstat = (sampleState, [Resp.rerror Eperm]) ∧
    opsWalk sampleState 1 7 ["ctl"] =
      ({ sampleState with fids := aset sampleState.fids 7 FidAux.ctl },
       [Resp.rwalk [{ qtype := 0, version := 0, path := 999000999 }]]) := by
  have h := ctl_fid_restrictions sampleState 2 (by decide)
  have h6 := h.2.2.2.2.2 1 7 100 { nodeId := 0, dirb := [], lock := none }
    { mode := DMDIR ||| 0o755, name := "", size := 0, mtime := 10, version := 7,
      parent := 0, children := [("a", 1), ("lock", 2), ("d", 3)],
      unlinked := false, refcount := 1 }
    (by decide) (by decide) (by decide) (by decide) (by decide)
  refine ⟨h.1 7 ["a"] (by decide), h.2.1 7, h.2.2.1 "x" 0o644, h.2.2.2.1,
          h.2.2.2.2.1 dontCareWstat, ?_⟩
  rw [h6.1]
  decide


/-- C10 (code bug): in `ops.Open` the `ORCLOSE` rejection is not followed by
a return, so the handler keeps going.  Evaluated at the failing input — an
Open of file fid 4 with mode `ORCLOSE|OTRUNC` — the dispatcher sends *two*
responses (the permission error and then an `Ropen`) and truncates the node
(size 5 → 0, version bump), where the intended behavior (and go9p's
one-response-per-request contract) is a single permission error with no
effect. -/
theorem open_orclose_double_respond :
    opsOpen sampleState 4 (ORCLOSE ||| OTRUNC) =
      ({ sampleState with tree := truncateNode sampleState.tree 1 0 },
       [Resp.rerror Eperm, Resp.ropen { qtype := 0, version := 2, path := 1 }]) ∧
    (opsOpen sampleState 4 (ORCLOSE ||| OTRUNC)).2.length = 2 ∧
    alookup sampleState.tree.nodes 1 =
      some { mode := 0o644, name := "a", size := 5, mtime := 11, version := 2,
             parent := 0, children := [], unlinked := false, refcount := 1 } ∧
    alookup (opsOpen sampleState 4 (ORCLOSE ||| OTRUNC)).1.tree.nodes 1 =
      some { mode := 0o644, name := "a", size := 0, mtime := 11, version := 3,
             parent := 0, children := [], unlinked := false, refcount := 1 } := by
  decide


end Muscle
